import Mathlib

/-
Verification of the logging subsystem of the zhmcclient package
(file zhmcclient/_logging.py): the silent-by-default logger registry
accessor get_logger, and the API-call logging decorator logged_api_call
with its per-call wrapper log_api_call.

The Python code is shallowly embedded as follows.

Python exceptions are modelled by the PyExc structure (an exception type
name together with a message).  Python objects handed to the decorator
are modelled by the PyFunc structure, recording exactly the three facts
the decorator inspects: whether inspect.isfunction holds, the name of the
module that inspect.getmodule resolves (none when it resolves to None,
in which case the subsequent hasattr check fails, since None has no
attribute named dunder name), and the function's own name attribute.

Stack introspection is modelled by its observable outcome: at decoration
time, the name of the code object one frame up (DecorationCtx.apifuncOwner,
the value of inspect.getframeinfo(apifunc_frame)[2]); at call time, the
name of the module of the frame two frames up from the wrapper
(ApiCallEnv.callerModuleName?, the name of inspect.getmodule(apicaller_frame),
which is none when getmodule returns None - in that case the attribute
access apicaller_module.__name__ in the source raises an AttributeError).

Calls of logger.debug made by the wrapper, and the single invocation of
the wrapped function, are recorded in an explicit event trace (ApiEvent),
so that statements about which records are emitted, in which order, and
how often the wrapped function is invoked, are statements about the trace.
The standard-library logging machinery is modelled at the level this
module uses it: a process-wide map from logger names to handler lists,
where a NullHandler discards every record and a consumer handler renders
it.
-/

/-- A Python exception, identified by its type name and message. -/
structure PyExc where
  ty : String
  msg : String
  deriving DecidableEq, Repr

/-- The TypeError raised by logged_api_call at decoration time
(message text from the source). -/
def decoratorTypeError : PyExc :=
  { ty := "TypeError"
    msg := "The @logged_api_call decorator must be used on a function or method (and not on top of the @property decorator)" }

/-- The AttributeError raised inside the wrapper when
inspect.getmodule(apicaller_frame) returns None and the source then
evaluates apicaller_module.__name__ on None.  (CPython renders the
message with quotes around NoneType and the attribute name.) -/
def noneAttributeError : PyExc :=
  { ty := "AttributeError"
    msg := "NoneType object has no attribute __name__" }

/-- The facts about the decoration target that logged_api_call inspects:
inspect.isfunction(func), the module resolved by inspect.getmodule(func)
(its name, or none when getmodule returns None, which makes the
hasattr(module, dunder name) test fail), and func.__name__. -/
structure PyFunc where
  isFunction : Bool
  moduleName? : Option String
  name : String
  deriving DecidableEq, Repr

/-- Modelled from the spec: the fixed library-wide logger name for API-call
tracing, imported in the source from zhmcclient._constants (a module not
part of the provided sources); the module docstring names this logger
zhmcclient.api. -/
def API_LOGGER_NAME : String := "zhmcclient.api"

/-- The decoration-time stack context: the code-object name one frame up
from the decorator call, i.e. inspect.getframeinfo(apifunc_frame)[2].
It is the string with angle brackets around module when the decorated
function is being defined at module scope, and the name of the enclosing
class body or function otherwise. -/
structure DecorationCtx where
  apifuncOwner : String
  deriving DecidableEq, Repr

/-- The display name computed at decoration time (source variable
apifunc_str). -/
def apifunc_str (apifuncOwner funcName : String) : String :=
  if apifuncOwner = "<module>" then funcName ++ "()"
  else apifuncOwner ++ "." ++ funcName ++ "()"

/-- The wrapped API function produced by decoration: the original callable
together with the display name computed once at decoration time and
captured by the wrapper closure. -/
structure WrappedApi (α κ β : Type) where
  func : α → κ → Except PyExc β
  apifuncStr : String

/-- The decorator logged_api_call.  It checks inspect.isfunction(func) and
hasattr(inspect.getmodule(func), dunder name), raising TypeError when
either fails, and otherwise builds the wrapper with the decoration-time
display name.  The callable itself is passed as impl, separated from the
inspected PyFunc metadata. -/
def logged_api_call {α κ β : Type} (ctx : DecorationCtx) (target : PyFunc)
    (impl : α → κ → Except PyExc β) : Except PyExc (WrappedApi α κ β) :=
  if !target.isFunction || target.moduleName?.isNone then
    Except.error decoratorTypeError
  else
    Except.ok { func := impl, apifuncStr := apifunc_str ctx.apifuncOwner target.name }

/-- Python str.split with a one-character separator: splits into the
(always nonempty) list of chunks between separator occurrences, keeping
empty chunks, so that the empty string splits into a single empty chunk. -/
def pySplit (sep : Char) : List Char → List (List Char)
  | [] => [[]]
  | c :: cs =>
    if c = sep then [] :: pySplit sep cs
    else
      match pySplit sep cs with
      | [] => [[c]]
      | g :: gs => (c :: g) :: gs

/-- The first dotted component of a module name: the source expression
apicaller_module_name.split(chr 46)[0], using that split always returns a
nonempty list. -/
def firstComponent (s : String) : String :=
  String.mk ((pySplit '.' s.data).headD [])

/-- The per-call logging decision of the wrapper (source variable log_it):
log only if the caller's top-level namespace is not zhmcclient. -/
def log_it (apicallerModuleName : String) : Bool :=
  decide (firstComponent apicallerModuleName ≠ "zhmcclient")

/-- Percent-formatting of a conversion with a precision, as used in the
debug calls of the source (precision 500 for the argument reprs, 1000 for
the result repr): the representation string is truncated to at most cap
characters, with nothing appended. -/
def reprTrunc (cap : Nat) (r : String) : String :=
  String.mk (r.data.take cap)

/-- The fully interpolated message of the entry debug record of the
source. -/
def entryMessage (apifuncStr argsRepr kwargsRepr : String) : String :=
  "==> " ++ apifuncStr ++ ", args: " ++ reprTrunc 500 argsRepr
    ++ ", kwargs: " ++ reprTrunc 500 kwargsRepr

/-- The fully interpolated message of the exit debug record of the
source. -/
def exitMessage (apifuncStr resultRepr : String) : String :=
  "<== " ++ apifuncStr ++ ", result: " ++ reprTrunc 1000 resultRepr

/-- One observable event of a wrapper invocation: a call of logger.debug
with the entry message, the single invocation of the wrapped function
with its arguments, or a call of logger.debug with the exit message. -/
inductive ApiEvent (α κ β : Type) where
  | entryDebug (msg : String)
  | callFunc (args : α) (kwargs : κ)
  | exitDebug (msg : String)

/-- The call-time stack context of the wrapper: the name of the module of
the frame two frames up (the caller of the decorated function), as
resolved by inspect.getmodule; none when getmodule returns None. -/
structure ApiCallEnv where
  callerModuleName? : Option String
  deriving DecidableEq, Repr

/-- The wrapper log_api_call of the source, returning both the call's
outcome and the trace of events it produced, in order.  When the caller's
module cannot be resolved, the attribute access on None raises inside the
wrapper before the wrapped function is invoked.  The repr functions stand
for Python repr on the argument tuple, the keyword dict and the result. -/
def log_api_call {α κ β : Type} (w : WrappedApi α κ β)
    (reprArgs : α → String) (reprKwargs : κ → String) (reprResult : β → String)
    (env : ApiCallEnv) (args : α) (kwargs : κ) :
    Except PyExc β × List (ApiEvent α κ β) :=
  match env.callerModuleName? with
  | none => (Except.error noneAttributeError, [])
  | some apicallerModuleName =>
    let logIt := log_it apicallerModuleName
    let entryEvents : List (ApiEvent α κ β) :=
      if logIt then
        [ApiEvent.entryDebug
          (entryMessage w.apifuncStr (reprArgs args) (reprKwargs kwargs))]
      else []
    match w.func args kwargs with
    | Except.error e =>
        (Except.error e, entryEvents ++ [ApiEvent.callFunc args kwargs])
    | Except.ok v =>
        (Except.ok v,
          entryEvents ++ [ApiEvent.callFunc args kwargs] ++
            (if logIt then
              [ApiEvent.exitDebug (exitMessage w.apifuncStr (reprResult v))]
            else []))

/-- Whether an event is a call of logger.debug (an entry or exit record
being handed to the logger). -/
def isDebugEvent {α κ β : Type} : ApiEvent α κ β → Bool
  | ApiEvent.entryDebug _ => true
  | ApiEvent.exitDebug _ => true
  | ApiEvent.callFunc _ _ => false

/-- The log records actually delivered for a trace under a logging
configuration: when debug-level logging is enabled for the logger the
debug messages are rendered, otherwise nothing is. -/
def emittedRecords {α κ β : Type} (debugEnabled : Bool)
    (trace : List (ApiEvent α κ β)) : List String :=
  if debugEnabled then
    trace.filterMap fun e =>
      match e with
      | ApiEvent.entryDebug m => some m
      | ApiEvent.exitDebug m => some m
      | ApiEvent.callFunc _ _ => none
  else []

/-- The invocations of the wrapped function recorded in a trace, with
their arguments. -/
def funcCalls {α κ β : Type} (trace : List (ApiEvent α κ β)) : List (α × κ) :=
  trace.filterMap fun e =>
    match e with
    | ApiEvent.callFunc a k => some (a, k)
    | ApiEvent.entryDebug _ => none
    | ApiEvent.exitDebug _ => none

/-- A handler attached to a logger: the NullHandler the accessor attaches
(which discards every record), or an output handler attached by a
consumer. -/
inductive LogHandler where
  | nullHandler
  | consumerHandler (id : Nat)
  deriving DecidableEq, Repr

/-- The process-wide logging state this module touches: the handler list
of each named logger (a never-accessed logger has no handlers). -/
def HandlerMap : Type := String → List LogHandler

/-- The accessor get_logger of the source as a state transformer: look up
the process-wide logger of the given name and attach a NullHandler if and
only if it has no handlers yet.  The logger returned to the caller is the
entry of the resulting map at that name. -/
def get_logger (st : HandlerMap) (name : String) : HandlerMap :=
  if st name = [] then
    fun n => if n = name then st name ++ [LogHandler.nullHandler] else st n
  else st

/-- What a single handler does with a rendered debug message: the
NullHandler emits nothing, a consumer handler renders the record. -/
def handlerOutput : LogHandler → String → List String
  | LogHandler.nullHandler, _ => []
  | LogHandler.consumerHandler i, msg => [toString i ++ ": " ++ msg]

/-- The observable output a logger with the given handlers produces for
one debug message. -/
def loggerOutput (hs : List LogHandler) (msg : String) : List String :=
  hs.foldr (fun h acc => handlerOutput h msg ++ acc) []

/-- The number of NullHandlers in a handler list. -/
def countNull : List LogHandler → Nat
  | [] => 0
  | LogHandler.nullHandler :: hs => countNull hs + 1
  | LogHandler.consumerHandler _ :: hs => countNull hs

/-- One primitive step of the body of get_logger, for reasoning about two
threads interleaving their calls on the same logger: readHandlers t is
thread t evaluating the test on logger.handlers (storing the outcome),
and addNull t is thread t running the conditional
logger.addHandler(logging.NullHandler()) guarded by its stored outcome.
A thread's addNull before its readHandlers is a no-op, so every list of
steps containing readHandlers t before addNull t for each thread is a
valid interleaving of the two calls. -/
inductive RaceOp where
  | readHandlers (t : Fin 2)
  | addNull (t : Fin 2)
  deriving DecidableEq, Repr

/-- The shared handler list of the one logger under concurrent access,
plus each thread's private view of the emptiness test it evaluated. -/
structure RaceState where
  handlers : List LogHandler
  saw : Fin 2 → Option Bool

/-- Effect of one interleaved step on the race state. -/
def raceStep (st : RaceState) : RaceOp → RaceState
  | RaceOp.readHandlers t =>
      { st with saw := fun i => if i = t then some st.handlers.isEmpty else st.saw i }
  | RaceOp.addNull t =>
      if st.saw t = some true then
        { st with handlers := st.handlers ++ [LogHandler.nullHandler] }
      else st

/-- Run an interleaving of get_logger steps from a state. -/
def runRace (ops : List RaceOp) (st : RaceState) : RaceState :=
  ops.foldl raceStep st

/-- The initial race state: a fresh logger with no handlers, neither
thread having evaluated its test yet. -/
def initRace : RaceState :=
  { handlers := [], saw := fun _ => none }

/-- A concrete wrapped function for instantiations: adds its two
arguments. -/
def addWrapped : WrappedApi Nat Nat Nat :=
  { func := fun a k => Except.ok (a + k), apifuncStr := "Cpc.start()" }

/-- A concrete wrapped function whose body always raises. -/
def failWrapped : WrappedApi Nat Nat Nat :=
  { func := fun _ _ => Except.error { ty := "ConnectionError", msg := "HMC unreachable" }
    apifuncStr := "Cpc.start()" }

/-- A constant repr oracle for concrete instantiations. -/
def constRepr : Nat → String := fun _ => "(1, 2)"

/-- A call environment whose caller is outside the library. -/
def externalEnv : ApiCallEnv := { callerModuleName? := some "myapp.main" }

/-- A call environment whose caller is another module of the library. -/
def internalEnv : ApiCallEnv := { callerModuleName? := some "zhmcclient._partition" }

/-- A call environment whose caller's module cannot be resolved. -/
def unresolvedEnv : ApiCallEnv := { callerModuleName? := none }

theorem get_logger_apply (st : HandlerMap) (name : String) :
    get_logger st name name =
      if st name = [] then st name ++ [LogHandler.nullHandler] else st name := by
  unfold get_logger
  by_cases h : st name = []
  · simp [h]
  · simp [h]

theorem get_logger_of_ne (st : HandlerMap) (name : String) (h : st name ≠ []) :
    get_logger st name = st := by
  unfold get_logger
  simp [h]

theorem log_it_eq_true (m : String) :
    log_it m = true ↔ firstComponent m ≠ "zhmcclient" := by
  simp [log_it]

/-- C7: get_logger yields the handler list of the process-wide logger of
the given name, attaching the discard (null) handler exactly when the
logger has no handlers yet; a freshly requested logger therefore carries
only the NullHandler and produces no observable output for any debug
message, a logger that already has handlers is left unchanged, and
repeated calls are idempotent, never attaching a duplicate NullHandler. -/
theorem C7_get_logger_null_once (st : HandlerMap) (name : String) :
    (st name = [] →
      get_logger st name name = [LogHandler.nullHandler] ∧
      ∀ msg, loggerOutput (get_logger st name name) msg = []) ∧
    (st name ≠ [] → get_logger st name = st) ∧
    get_logger (get_logger st name) name = get_logger st name ∧
    countNull (get_logger st name name) ≤
      countNull (st name) + (if st name = [] then 1 else 0) := by
  by_cases h : st name = []
  · have happ : get_logger st name name = [LogHandler.nullHandler] := by
      rw [get_logger_apply, if_pos h, h]
      rfl
    refine ⟨fun _ => ⟨happ, fun msg => ?_⟩, fun hn => absurd h hn, ?_, ?_⟩
    · rw [happ]
      rfl
    · have hne : get_logger st name name ≠ [] := by
        rw [happ]
        exact List.cons_ne_nil _ _
      exact get_logger_of_ne _ _ hne
    · rw [happ, h, if_pos rfl]
      exact Nat.le_refl _
  · have heq : get_logger st name = st := get_logger_of_ne st name h
    refine ⟨fun hc => absurd hc h, fun _ => heq, ?_, ?_⟩
    · rw [heq, heq]
    · rw [heq, if_neg h]
      exact Nat.le_refl _

/-- Witness for C7: a fresh state with no handlers anywhere, at the API
logger name. -/
theorem C7_witness :
    get_logger (fun _ => []) API_LOGGER_NAME API_LOGGER_NAME = [LogHandler.nullHandler] ∧
    loggerOutput (get_logger (fun _ => []) API_LOGGER_NAME API_LOGGER_NAME) "==> Cpc.start()" = [] := by
  have h := (C7_get_logger_null_once (fun _ => []) API_LOGGER_NAME).1 rfl
  exact ⟨h.1, h.2 "==> Cpc.start()"⟩

/-- C4: applying logged_api_call to a target that is not a plain function
produces the decoration TypeError at decoration time itself (no wrapper
is built, so the target is never called), and this TypeError is the only
error logged_api_call can ever produce at decoration time. -/
theorem C4_decoration_typeerror {α κ β : Type} (ctx : DecorationCtx)
    (target : PyFunc) (impl : α → κ → Except PyExc β)
    (h : target.isFunction = false) :
    logged_api_call ctx target impl = Except.error decoratorTypeError ∧
    decoratorTypeError.ty = "TypeError" ∧
    ∀ (ctx2 : DecorationCtx) (t2 : PyFunc) (impl2 : α → κ → Except PyExc β) (e : PyExc),
      logged_api_call ctx2 t2 impl2 = Except.error e → e = decoratorTypeError := by
  refine ⟨by simp [logged_api_call, h], rfl, ?_⟩
  intro ctx2 t2 impl2 e he
  unfold logged_api_call at he
  split at he
  · injection he with h1
    exact h1.symm
  · cases he

/-- Witness for C4 at a concrete property-like target. -/
theorem C4_witness :
    logged_api_call { apifuncOwner := "Cpc" }
      { isFunction := false, moduleName? := some "zhmcclient._cpc", name := "dpm_enabled" }
      (fun (a : Nat) (k : Nat) => Except.ok (a + k)) = Except.error decoratorTypeError ∧
    decoratorTypeError.ty = "TypeError" := by
  have h := C4_decoration_typeerror { apifuncOwner := "Cpc" }
      { isFunction := false, moduleName? := some "zhmcclient._cpc", name := "dpm_enabled" }
      (fun (a : Nat) (k : Nat) => Except.ok (a + k)) rfl
  exact ⟨h.1, h.2.1⟩

/-- C9: a genuine plain function whose defining module cannot be resolved
(inspect.getmodule returns None) is rejected at decoration time with the
same TypeError, because the hasattr test on None fails. -/
theorem C9_unresolvable_module_rejected {α κ β : Type} (ctx : DecorationCtx)
    (target : PyFunc) (impl : α → κ → Except PyExc β)
    (hf : target.isFunction = true) (hmod : target.moduleName? = none) :
    logged_api_call ctx target impl = Except.error decoratorTypeError := by
  simp [logged_api_call, hf, hmod]

/-- Witness for C9 at a concrete function without a resolvable module. -/
theorem C9_witness :
    logged_api_call { apifuncOwner := "<module>" }
      { isFunction := true, moduleName? := none, name := "orphan_function" }
      (fun (a : Nat) (k : Nat) => Except.ok (a + k)) = Except.error decoratorTypeError :=
  C9_unresolvable_module_rejected { apifuncOwner := "<module>" }
    { isFunction := true, moduleName? := none, name := "orphan_function" }
    (fun (a : Nat) (k : Nat) => Except.ok (a + k)) rfl rfl

/-- C5: decoration computes the display name once: a successfully built
wrapper carries as apifuncStr the string name() when the decoration
context is module scope and Owner.name() otherwise, and every entry
record of every later call of the wrapper is built from that stored
decoration-time string. -/
theorem C5_display_name_cached {α κ β : Type} (ctx : DecorationCtx)
    (target : PyFunc) (impl : α → κ → Except PyExc β) (w : WrappedApi α κ β)
    (hw : logged_api_call ctx target impl = Except.ok w) :
    w.apifuncStr =
      (if ctx.apifuncOwner = "<module>" then target.name ++ "()"
       else ctx.apifuncOwner ++ "." ++ target.name ++ "()") ∧
    ∀ (ra : α → String) (rk : κ → String) (rb : β → String)
      (env : ApiCallEnv) (args : α) (kwargs : κ) (msg : String),
      ApiEvent.entryDebug msg ∈ (log_api_call w ra rk rb env args kwargs).2 →
      msg = entryMessage w.apifuncStr (ra args) (rk kwargs) := by
  unfold logged_api_call at hw
  split at hw
  · cases hw
  · injection hw with hw'
    subst hw'
    refine ⟨rfl, ?_⟩
    intro ra rk rb env args kwargs msg hmem
    unfold log_api_call at hmem
    cases henv : env.callerModuleName? with
    | none =>
      rw [henv] at hmem
      simp at hmem
    | some m =>
      rw [henv] at hmem
      cases hres : impl args kwargs with
      | error e =>
        by_cases hl : log_it m = true
        · simp [hl, hres] at hmem
          exact hmem
        · simp [Bool.of_not_eq_true hl, hres] at hmem
      | ok v =>
        by_cases hl : log_it m = true
        · simp [hl, hres] at hmem
          exact hmem
        · simp [Bool.of_not_eq_true hl, hres] at hmem

/-- Witness for C5 at a concrete method decoration. -/
theorem C5_witness :
    ({ func := fun (a : Nat) (k : Nat) => Except.ok (a + k)
       apifuncStr := apifunc_str "Cpc" "start" } : WrappedApi Nat Nat Nat).apifuncStr
      = "Cpc.start()" := by
  have h := C5_display_name_cached { apifuncOwner := "Cpc" }
      { isFunction := true, moduleName? := some "zhmcclient._cpc", name := "start" }
      (fun (a : Nat) (k : Nat) => Except.ok (a + k))
      { func := fun (a : Nat) (k : Nat) => Except.ok (a + k)
        apifuncStr := apifunc_str "Cpc" "start" }
      rfl
  rw [h.1]
  decide

/-- C1: when the caller's module two frames up resolves to name m, the
wrapper hands records to logger.debug if and only if the first dotted
component of m differs from zhmcclient, and when that component is
zhmcclient the call delivers no entry or exit record under any logging
configuration. -/
theorem C1_internal_caller_not_logged {α κ β : Type} (w : WrappedApi α κ β)
    (ra : α → String) (rk : κ → String) (rb : β → String)
    (env : ApiCallEnv) (args : α) (kwargs : κ) (m : String)
    (hm : env.callerModuleName? = some m) :
    ((((log_api_call w ra rk rb env args kwargs).2.any fun e => isDebugEvent e) = true) ↔
      firstComponent m ≠ "zhmcclient") ∧
    (firstComponent m = "zhmcclient" →
      ∀ debugEnabled : Bool,
        emittedRecords debugEnabled (log_api_call w ra rk rb env args kwargs).2 = []) := by
  unfold log_api_call
  rw [hm]
  by_cases hfc : firstComponent m = "zhmcclient"
  · have hl : log_it m = false := by
      simp [log_it, hfc]
    cases hres : w.func args kwargs with
    | error e =>
      simp [hl, hres, isDebugEvent, emittedRecords, hfc]
    | ok v =>
      simp [hl, hres, isDebugEvent, emittedRecords, hfc]
  · have hl : log_it m = true := (log_it_eq_true m).mpr hfc
    cases hres : w.func args kwargs with
    | error e =>
      simp [hl, hres, isDebugEvent, hfc]
    | ok v =>
      simp [hl, hres, isDebugEvent, hfc]

/-- Witness for C1: a call from inside the library delivers no records
even with debug logging enabled, while the same call from an application
module hands records to the logger. -/
theorem C1_witness :
    emittedRecords true
      (log_api_call addWrapped constRepr constRepr constRepr internalEnv 1 2).2 = [] ∧
    ((log_api_call addWrapped constRepr constRepr constRepr externalEnv 1 2).2.any
      fun e => isDebugEvent e) = true := by
  constructor
  · exact (C1_internal_caller_not_logged addWrapped constRepr constRepr constRepr
      internalEnv 1 2 "zhmcclient._partition" rfl).2 (by decide) true
  · exact (C1_internal_caller_not_logged addWrapped constRepr constRepr constRepr
      externalEnv 1 2 "myapp.main" rfl).1.mpr (by decide)

/-- C2: when the caller's module resolves and the wrapped function
returns normally, the wrapper invokes it exactly once with the original
positional and keyword arguments and returns its result unchanged,
whatever the logging decision for the call. -/
theorem C2_result_transparent {α κ β : Type} (w : WrappedApi α κ β)
    (ra : α → String) (rk : κ → String) (rb : β → String)
    (env : ApiCallEnv) (args : α) (kwargs : κ) (m : String) (v : β)
    (hm : env.callerModuleName? = some m) (hv : w.func args kwargs = Except.ok v) :
    (log_api_call w ra rk rb env args kwargs).1 = Except.ok v ∧
    funcCalls (log_api_call w ra rk rb env args kwargs).2 = [(args, kwargs)] := by
  unfold log_api_call
  rw [hm]
  by_cases hl : log_it m = true
  · simp [hl, hv, funcCalls]
  · simp [Bool.of_not_eq_true hl, hv, funcCalls]

/-- Witness for C2 at a concrete external call. -/
theorem C2_witness :
    (log_api_call addWrapped constRepr constRepr constRepr externalEnv 1 2).1
      = Except.ok 3 ∧
    funcCalls (log_api_call addWrapped constRepr constRepr constRepr externalEnv 1 2).2
      = [(1, 2)] :=
  C2_result_transparent addWrapped constRepr constRepr constRepr
    externalEnv 1 2 "myapp.main" 3 rfl rfl

/-- C3: when the caller's module resolves and the wrapped function
raises, the wrapper propagates the very same exception (same type and
message), the trace carries no exit record, and when the call is logged
the entry record precedes the invocation that raised. -/
theorem C3_error_propagated {α κ β : Type} (w : WrappedApi α κ β)
    (ra : α → String) (rk : κ → String) (rb : β → String)
    (env : ApiCallEnv) (args : α) (kwargs : κ) (m : String) (e : PyExc)
    (hm : env.callerModuleName? = some m) (he : w.func args kwargs = Except.error e) :
    (log_api_call w ra rk rb env args kwargs).1 = Except.error e ∧
    (log_api_call w ra rk rb env args kwargs).2 =
      (if log_it m then
        [ApiEvent.entryDebug (entryMessage w.apifuncStr (ra args) (rk kwargs))]
       else []) ++ [ApiEvent.callFunc args kwargs] := by
  unfold log_api_call
  rw [hm]
  by_cases hl : log_it m = true
  · simp [hl, he]
  · simp [Bool.of_not_eq_true hl, he]

/-- Witness for C3 at a concrete raising call from an application
module. -/
theorem C3_witness :
    (log_api_call failWrapped constRepr constRepr constRepr externalEnv 1 2).1
      = Except.error { ty := "ConnectionError", msg := "HMC unreachable" } ∧
    (log_api_call failWrapped constRepr constRepr constRepr externalEnv 1 2).2 =
      (if log_it "myapp.main" then
        [ApiEvent.entryDebug (entryMessage failWrapped.apifuncStr "(1, 2)" "(1, 2)")]
       else []) ++ [ApiEvent.callFunc 1 2] :=
  C3_error_propagated failWrapped constRepr constRepr constRepr
    externalEnv 1 2 "myapp.main" { ty := "ConnectionError", msg := "HMC unreachable" }
    rfl rfl

/-- C6 (amended): for a logged successful call, the trace is exactly the
entry record of shape with the display name followed by the
500-character-capped argument and keyword reprs, the single invocation,
and the exit record of shape with the display name followed by the
1000-character-capped result repr; the caps truncate the representation
by plain cutoff, keeping its first cap characters with nothing
appended. -/
theorem C6_record_shapes {α κ β : Type} (w : WrappedApi α κ β)
    (ra : α → String) (rk : κ → String) (rb : β → String)
    (env : ApiCallEnv) (args : α) (kwargs : κ) (m : String) (v : β)
    (hm : env.callerModuleName? = some m) (hl : log_it m = true)
    (hv : w.func args kwargs = Except.ok v) :
    (log_api_call w ra rk rb env args kwargs).2 =
      [ApiEvent.entryDebug ("==> " ++ w.apifuncStr ++ ", args: " ++ reprTrunc 500 (ra args)
          ++ ", kwargs: " ++ reprTrunc 500 (rk kwargs)),
       ApiEvent.callFunc args kwargs,
       ApiEvent.exitDebug ("<== " ++ w.apifuncStr ++ ", result: " ++ reprTrunc 1000 (rb v))] ∧
    (∀ s : String, (reprTrunc 500 s).data = s.data.take 500) ∧
    (∀ s : String, (reprTrunc 1000 s).data = s.data.take 1000) := by
  refine ⟨?_, fun s => rfl, fun s => rfl⟩
  unfold log_api_call
  rw [hm]
  simp [hl, hv, entryMessage, exitMessage]

/-- Witness for C6 at a concrete logged successful call. -/
theorem C6_witness :
    (log_api_call addWrapped constRepr constRepr constRepr externalEnv 1 2).2 =
      [ApiEvent.entryDebug ("==> " ++ addWrapped.apifuncStr ++ ", args: "
          ++ reprTrunc 500 "(1, 2)" ++ ", kwargs: " ++ reprTrunc 500 "(1, 2)"),
       ApiEvent.callFunc 1 2,
       ApiEvent.exitDebug ("<== " ++ addWrapped.apifuncStr ++ ", result: "
          ++ reprTrunc 1000 "(1, 2)")] :=
  (C6_record_shapes addWrapped constRepr constRepr constRepr
    externalEnv 1 2 "myapp.main" 3 rfl (by decide) rfl).1

/-- C6 counterexample: the cap truncates by plain cutoff.  The capped
form of a 501-character representation is exactly its first 500
characters, and there is no fixed nonempty terminating marker that every
over-cap representation is truncated with: any such marker would have to
end an all-a capped output as well as an all-b capped output. -/
theorem C6_counterexample :
    (reprTrunc 500 (String.mk (List.replicate 501 'a'))).data
      = List.replicate 500 'a' ∧
    ¬ ∃ marker : String, 1 ≤ marker.length ∧
        ∀ s : String, 500 < s.length →
          ∃ p : List Char, (reprTrunc 500 s).data = p ++ marker.data := by
  constructor
  · show (List.replicate 501 'a').take 500 = List.replicate 500 'a'
    rw [List.take_replicate]
    norm_num
  · rintro ⟨marker, hlen, hall⟩
    have hmne : marker.data ≠ [] := by
      refine List.ne_nil_of_length_pos ?_
      exact hlen
    obtain ⟨c, hc⟩ := List.exists_mem_of_ne_nil marker.data hmne
    have h501a : (String.mk (List.replicate 501 'a')).length = 501 := by
      show (List.replicate 501 'a').length = 501
      rw [List.length_replicate]
    have h501b : (String.mk (List.replicate 501 'b')).length = 501 := by
      show (List.replicate 501 'b').length = 501
      rw [List.length_replicate]
    obtain ⟨pa, hpa⟩ := hall (String.mk (List.replicate 501 'a')) (by rw [h501a]; norm_num)
    obtain ⟨pb, hpb⟩ := hall (String.mk (List.replicate 501 'b')) (by rw [h501b]; norm_num)
    have hta : (reprTrunc 500 (String.mk (List.replicate 501 'a'))).data
        = List.replicate 500 'a' := by
      show (List.replicate 501 'a').take 500 = List.replicate 500 'a'
      rw [List.take_replicate]
      norm_num
    have htb : (reprTrunc 500 (String.mk (List.replicate 501 'b'))).data
        = List.replicate 500 'b' := by
      show (List.replicate 501 'b').take 500 = List.replicate 500 'b'
      rw [List.take_replicate]
      norm_num
    have hca : c = 'a' := by
      have : c ∈ List.replicate 500 'a' := by
        rw [← hta, hpa]
        exact List.mem_append_right pa hc
      exact List.eq_of_mem_replicate this
    have hcb : c = 'b' := by
      have : c ∈ List.replicate 500 'b' := by
        rw [← htb, hpb]
        exact List.mem_append_right pb hc
      exact List.eq_of_mem_replicate this
    rw [hca] at hcb
    exact absurd hcb (by decide)

/-- C8 (amended): when the caller's module two frames up can be resolved,
the wrapper's outcome is exactly the outcome of the wrapped function, so
every error of such a call originates from the wrapped function and
passes through unchanged; when the caller's module cannot be resolved the
wrapper itself raises, which is the one divergence forced on the claim. -/
theorem C8_outcome_unchanged {α κ β : Type} (w : WrappedApi α κ β)
    (ra : α → String) (rk : κ → String) (rb : β → String)
    (env : ApiCallEnv) (args : α) (kwargs : κ) (m : String)
    (hm : env.callerModuleName? = some m) :
    (log_api_call w ra rk rb env args kwargs).1 = w.func args kwargs := by
  unfold log_api_call
  rw [hm]
  cases hres : w.func args kwargs with
  | error e =>
    by_cases hl : log_it m = true
    · simp [hl, hres]
    · simp [Bool.of_not_eq_true hl, hres]
  | ok v =>
    by_cases hl : log_it m = true
    · simp [hl, hres]
    · simp [Bool.of_not_eq_true hl, hres]

/-- Witness for C8 at a concrete external call. -/
theorem C8_witness :
    (log_api_call addWrapped constRepr constRepr constRepr externalEnv 1 2).1
      = Except.ok 3 := by
  rw [C8_outcome_unchanged addWrapped constRepr constRepr constRepr
    externalEnv 1 2 "myapp.main" rfl]
  rfl

/-- C8 counterexample: a call whose caller's module cannot be resolved
makes the wrapper itself raise an AttributeError and never invoke the
wrapped function, although the unwrapped function succeeds on the same
arguments - a new runtime error path introduced by the wrapper. -/
theorem C8_counterexample :
    (log_api_call addWrapped constRepr constRepr constRepr unresolvedEnv 1 2).1
      = Except.error noneAttributeError ∧
    noneAttributeError.ty = "AttributeError" ∧
    addWrapped.func 1 2 = Except.ok 3 ∧
    funcCalls (log_api_call addWrapped constRepr constRepr constRepr unresolvedEnv 1 2).2
      = [] :=
  ⟨rfl, rfl, rfl, rfl⟩

/-- C10 counterexample: the interleaving in which both threads evaluate
the handlers-empty test before either attaches a handler leaves the
logger with two NullHandlers, so the unsynchronized check-then-attach of
get_logger does not behave as an atomic check-and-set under concurrent
first-time access. -/
theorem C10_counterexample :
    (runRace [RaceOp.readHandlers 0, RaceOp.readHandlers 1,
              RaceOp.addNull 0, RaceOp.addNull 1] initRace).handlers
      = [LogHandler.nullHandler, LogHandler.nullHandler] ∧
    countNull (runRace [RaceOp.readHandlers 0, RaceOp.readHandlers 1,
              RaceOp.addNull 0, RaceOp.addNull 1] initRace).handlers = 2 :=
  ⟨rfl, rfl⟩

/-- C10 (amended): when the two first-time calls are serialized (the two
read-then-attach sequences do not overlap), exactly one NullHandler is
attached, in either order; and a single thread's read-then-attach has
exactly the effect of get_logger on the shared handler list.  Atomicity
under arbitrary interleavings is not provided by the code. -/
theorem C10_serialized_single_null :
    (runRace [RaceOp.readHandlers 0, RaceOp.addNull 0,
              RaceOp.readHandlers 1, RaceOp.addNull 1] initRace).handlers
      = [LogHandler.nullHandler] ∧
    (runRace [RaceOp.readHandlers 1, RaceOp.addNull 1,
              RaceOp.readHandlers 0, RaceOp.addNull 0] initRace).handlers
      = [LogHandler.nullHandler] ∧
    ∀ (hs : List LogHandler) (t : Fin 2),
      (runRace [RaceOp.readHandlers t, RaceOp.addNull t]
        { handlers := hs, saw := fun _ => none }).handlers
        = get_logger (fun _ => hs) API_LOGGER_NAME API_LOGGER_NAME := by
  refine ⟨rfl, rfl, ?_⟩
  intro hs t
  cases hs with
  | nil => simp [runRace, raceStep, get_logger]
  | cons h tl => simp [runRace, raceStep, get_logger]
